import Mathlib

/-!
Verification of the request translation and validation pipeline of the
github-mcp-server (src/github/index.ts).

The embedding mirrors the TypeScript source:
* JavaScript values that can appear in an outbound JSON body are `JsValue`
  (with `undef` for `undefined`, which `JSON.stringify` drops from objects).
* `createPRReviewCommentRequest` / `updatePullRequestRequest` embed the
  request-construction part of `createPRReviewComment` / `updatePullRequest`:
  method, URL template interpolation, fixed header set, `JSON.stringify` body.
* `processResponse` embeds the post-fetch part shared by both operations:
  `if (!response.ok) throw new Error("GitHub API error: " + statusText)`
  followed by `Schema.parse(await response.json())`.  The network is an
  oracle `net : RequestDescriptor → ResponseEnvelope`; `response.json()` and
  the response-schema `.parse` are parameters, since any JSON-parse or any
  schema may be plugged in without changing the control flow being verified.
* `handleCallTool` embeds the `CallToolRequestSchema` handler: the
  `!request.params.arguments` guard, the `switch` on the tool name, the
  zod `.parse` of the arguments, and the `catch` block that rewrites a
  `z.ZodError` into `Error("Invalid arguments: " + ...)` and rethrows every
  other error unchanged.  The second component of its result counts the
  `fetch` calls performed (0 or 1), so "before any network activity" is a
  statement about that count.
* Errors are `JsError`: `.error msg` for `new Error(msg)` and
  `.zodError issues` for a `z.ZodError` carrying its list of issues.
-/

inductive JsValue where
  | str : String → JsValue
  | num : Int → JsValue
  | bool : Bool → JsValue
  | null : JsValue
  | undefinedV : JsValue
deriving DecidableEq

/-- `undefined`-valued properties are the ones `JSON.stringify` omits. -/
def JsValue.isUndefinedV : JsValue → Bool
  | .undefinedV => true
  | _ => false

/-- JSON string escaping as performed by `JSON.stringify` on the characters
that can require it in this development. -/
def escapeChar (c : Char) : String :=
  if c = '"' then "\\\""
  else if c = '\\' then "\\\\"
  else if c = '\n' then "\\n"
  else if c = '\r' then "\\r"
  else if c = '\t' then "\\t"
  else String.singleton c

def escapeString (s : String) : String :=
  String.join (s.data.map escapeChar)

def renderJsValue : JsValue → String
  | .str s => "\"" ++ escapeString s ++ "\""
  | .num n => toString n
  | .bool b => if b then "true" else "false"
  | .null => "null"
  | .undefinedV => "undefined"

/-- The properties of a JS object that survive `JSON.stringify`
(those whose value is not `undefined`), in insertion order. -/
def presentFields (fs : List (String × JsValue)) : List (String × JsValue) :=
  fs.filter fun kv => !kv.2.isUndefinedV

/-- `JSON.stringify` of a flat JS object: `undefined`-valued keys dropped,
remaining keys rendered in insertion order, no whitespace. -/
def stringifyObj (fs : List (String × JsValue)) : String :=
  "\x7b" ++ String.intercalate ","
    ((presentFields fs).map fun kv =>
      "\"" ++ escapeString kv.1 ++ "\":" ++ renderJsValue kv.2) ++ "\x7d"

/-- The keys actually present in the serialized JSON body. -/
def serializedKeys (fs : List (String × JsValue)) : List String :=
  (presentFields fs).map Prod.fst

/-- First-match property lookup on a JS object. -/
def lookupField (k : String) (fs : List (String × JsValue)) : Option JsValue :=
  (fs.find? fun kv => kv.1 = k).map Prod.snd

/-- The diff side of a review comment: `"LEFT" | "RIGHT"` in the source. -/
inductive Side where
  | LEFT : Side
  | RIGHT : Side
deriving DecidableEq

def Side.toStr : Side → String
  | .LEFT => "LEFT"
  | .RIGHT => "RIGHT"

/-- JavaScript `s || d` on an optional string: `undefined` and the empty
string are falsy, every other string is itself. -/
def jsOrString : Option String → String → String
  | none, d => d
  | some s, d => if s = "" then d else s

/-- Pull-request state: `"open" | "closed"`. -/
inductive PRState where
  | Open : PRState
  | Closed : PRState
deriving DecidableEq

def PRState.toStr : PRState → String
  | .Open => "open"
  | .Closed => "closed"

/-- A fully built outbound HTTP request (method, URL, headers, body),
side-effect free. -/
structure RequestDescriptor where
  method : String
  url : String
  headers : List (String × String)
  body : String
deriving DecidableEq

/-- The fixed header set attached by both operations. -/
def githubHeaders (token : String) : List (String × String) :=
  [("Authorization", "token " ++ token),
   ("Accept", "application/vnd.github.v3+json"),
   ("User-Agent", "github-mcp-server"),
   ("Content-Type", "application/json")]

/-- The typed parameters of `createPRReviewComment` (its signature in
index.ts). -/
structure CreatePRReviewCommentParams where
  owner : String
  repo : String
  pullNumber : Nat
  body : String
  commitId : String
  path : String
  line : Int
  side : Option Side
  startLine : Option Int
  startSide : Option Side
deriving DecidableEq

def optNum : Option Int → JsValue
  | some n => .num n
  | none => .undefinedV

def optSideStr : Option Side → JsValue
  | some s => .str s.toStr
  | none => .undefinedV

/-- The JS object literal passed to `JSON.stringify` in
`createPRReviewComment`:
`{body, commit_id, path, line, side: side || "RIGHT", start_line: startLine,
start_side: startSide}`. -/
def createPRReviewCommentBodyFields (p : CreatePRReviewCommentParams) :
    List (String × JsValue) :=
  [("body", .str p.body),
   ("commit_id", .str p.commitId),
   ("path", .str p.path),
   ("line", .num p.line),
   ("side", .str (jsOrString (p.side.map Side.toStr) "RIGHT")),
   ("start_line", optNum p.startLine),
   ("start_side", optSideStr p.startSide)]

/-- The request built by `createPRReviewComment`: POST to
`https://api.github.com/repos/${owner}/${repo}/pulls/${pullNumber}/comments`
with the fixed headers and the stringified body object. -/
def createPRReviewCommentRequest (token : String)
    (p : CreatePRReviewCommentParams) : RequestDescriptor :=
  { method := "POST"
    url := "https://api.github.com/repos/" ++ p.owner ++ "/" ++ p.repo ++
      "/pulls/" ++ toString p.pullNumber ++ "/comments"
    headers := githubHeaders token
    body := stringifyObj (createPRReviewCommentBodyFields p) }

/-- Modelled from the spec: the repository's `schemas.ts` (defining
`UpdatePullRequestSchema`, whose `Omit<..., 'owner'|'repo'|'pull_number'>`
is the options type) is not under src/.  Per the spec, the options are any
subset of {title, body, state ∈ {open, closed}, base,
maintainer_can_modify}; an absent option is `undefined`. -/
structure UpdatePullRequestOptions where
  title : Option String
  body : Option String
  state : Option PRState
  base : Option String
  maintainer_can_modify : Option Bool
deriving DecidableEq

def optStr : Option String → JsValue
  | some s => .str s
  | none => .undefinedV

def optStateStr : Option PRState → JsValue
  | some s => .str s.toStr
  | none => .undefinedV

def optBool : Option Bool → JsValue
  | some b => .bool b
  | none => .undefinedV

/-- The JS object handed to `JSON.stringify(options)` in
`updatePullRequest`: each supplied option under its own key, absent options
`undefined`. -/
def updatePullRequestOptionsFields (o : UpdatePullRequestOptions) :
    List (String × JsValue) :=
  [("title", optStr o.title),
   ("body", optStr o.body),
   ("state", optStateStr o.state),
   ("base", optStr o.base),
   ("maintainer_can_modify", optBool o.maintainer_can_modify)]

/-- The request built by `updatePullRequest`: PATCH to
`https://api.github.com/repos/${owner}/${repo}/pulls/${pullNumber}` with the
fixed headers and `JSON.stringify(options)` as body. -/
def updatePullRequestRequest (token owner repo : String) (pullNumber : Nat)
    (o : UpdatePullRequestOptions) : RequestDescriptor :=
  { method := "PATCH"
    url := "https://api.github.com/repos/" ++ owner ++ "/" ++ repo ++
      "/pulls/" ++ toString pullNumber
    headers := githubHeaders token
    body := stringifyObj (updatePullRequestOptionsFields o) }

/-- What the network produced: status code, status text, raw body. -/
structure ResponseEnvelope where
  status : Nat
  statusText : String
  body : String
deriving DecidableEq

/-- node-fetch `response.ok`: status in [200, 300). -/
def ResponseEnvelope.ok (r : ResponseEnvelope) : Bool :=
  200 ≤ r.status && r.status < 300

/-- One issue of a `z.ZodError`: a field path and a message. -/
structure ZodIssue where
  path : List String
  message : String
deriving DecidableEq

/-- A thrown JS error, as far as the handler distinguishes them:
`new Error(msg)`, or a `z.ZodError` carrying its issues. -/
inductive JsError where
  | error : String → JsError
  | zodError : List ZodIssue → JsError
deriving DecidableEq

/-- The post-fetch tail shared verbatim by `createPRReviewComment` and
`updatePullRequest`:
`if (!response.ok) throw new Error("GitHub API error: " + response.statusText);`
`return Schema.parse(await response.json());`
`jsonParse` stands for `response.json()` (its failure is a non-Zod error);
`schemaParse` stands for the response schema's `.parse`, whose failure is a
`z.ZodError`. -/
def processResponse {β α : Type} (resp : ResponseEnvelope)
    (jsonParse : String → Except String β)
    (schemaParse : β → Except (List ZodIssue) α) : Except JsError α :=
  if resp.ok then
    match jsonParse resp.body with
    | .error m => .error (.error m)
    | .ok j =>
      match schemaParse j with
      | .error issues => .error (.zodError issues)
      | .ok v => .ok v
  else
    .error (.error ("GitHub API error: " ++ resp.statusText))

/-- `createPRReviewComment` as a whole: build the request, hand it to the
network oracle, classify and validate the response. -/
def createPRReviewCommentRun {β α : Type} (token : String)
    (p : CreatePRReviewCommentParams)
    (net : RequestDescriptor → ResponseEnvelope)
    (jsonParse : String → Except String β)
    (schemaParse : β → Except (List ZodIssue) α) : Except JsError α :=
  processResponse (net (createPRReviewCommentRequest token p)) jsonParse
    schemaParse

/-- `updatePullRequest` as a whole: build the request, hand it to the
network oracle, classify and validate the response. -/
def updatePullRequestRun {β α : Type} (token owner repo : String)
    (pullNumber : Nat) (o : UpdatePullRequestOptions)
    (net : RequestDescriptor → ResponseEnvelope)
    (jsonParse : String → Except String β)
    (schemaParse : β → Except (List ZodIssue) α) : Except JsError α :=
  processResponse (net (updatePullRequestRequest token owner repo pullNumber o))
    jsonParse schemaParse

/-- The incoming arguments mapping of a tool call (a JSON object). -/
abbrev ToolArgs := List (String × JsValue)

/-- An incoming tool call: `request.params.name` and
`request.params.arguments` (which may be absent). -/
structure CallToolRequest where
  name : String
  arguments : Option ToolArgs
deriving DecidableEq

/-- The destructured result of `UpdatePullRequestSchema.parse`:
`const { owner, repo, pull_number, ...options } = args`. -/
structure UpdatePullRequestArgs where
  owner : String
  repo : String
  pull_number : Nat
  options : UpdatePullRequestOptions
deriving DecidableEq

/-- The message built by the handler's catch block from a `z.ZodError`:
`error.errors.map(e => e.path.join(".") + ": " + e.message).join(", ")`. -/
def formatZodIssues (issues : List ZodIssue) : String :=
  String.intercalate ", "
    (issues.map fun e => String.intercalate "." e.path ++ ": " ++ e.message)

/-- The handler's catch block: a `z.ZodError` is rewritten to
`new Error("Invalid arguments: " + ...)`; every other error is rethrown
unchanged. -/
def catchZodError {α : Type} : Except JsError α → Except JsError α
  | .error (.zodError issues) =>
      .error (.error ("Invalid arguments: " ++ formatZodIssues issues))
  | r => r

/-- The body of the handler's `try`: the `!request.params.arguments` guard,
then the `switch` on the tool name (argument parse via the tool's input
schema, then the operation), with `Unknown tool` in the default case.  The
second component counts `fetch` calls. -/
def callToolTry {β α : Type} (token : String)
    (parseUpdateArgs : ToolArgs → Except (List ZodIssue) UpdatePullRequestArgs)
    (parseCreateArgs :
      ToolArgs → Except (List ZodIssue) CreatePRReviewCommentParams)
    (net : RequestDescriptor → ResponseEnvelope)
    (jsonParse : String → Except String β)
    (schemaParseUpdate schemaParseCreate : β → Except (List ZodIssue) α)
    (req : CallToolRequest) : Except JsError α × Nat :=
  match req.arguments with
  | none => (.error (.error "Arguments are required"), 0)
  | some args =>
    if req.name = "update_pull_request" then
      match parseUpdateArgs args with
      | .error issues => (.error (.zodError issues), 0)
      | .ok a =>
        (updatePullRequestRun token a.owner a.repo a.pull_number a.options net
          jsonParse schemaParseUpdate, 1)
    else if req.name = "create_pr_review_comment" then
      match parseCreateArgs args with
      | .error issues => (.error (.zodError issues), 0)
      | .ok p =>
        (createPRReviewCommentRun token p net jsonParse schemaParseCreate, 1)
    else
      (.error (.error ("Unknown tool: " ++ req.name)), 0)

/-- The complete `CallToolRequestSchema` handler: the `try` body wrapped in
the catch block.  (On success the source wraps the validated result in a
text content item; the validated value itself is returned here.) -/
def handleCallTool {β α : Type} (token : String)
    (parseUpdateArgs : ToolArgs → Except (List ZodIssue) UpdatePullRequestArgs)
    (parseCreateArgs :
      ToolArgs → Except (List ZodIssue) CreatePRReviewCommentParams)
    (net : RequestDescriptor → ResponseEnvelope)
    (jsonParse : String → Except String β)
    (schemaParseUpdate schemaParseCreate : β → Except (List ZodIssue) α)
    (req : CallToolRequest) : Except JsError α × Nat :=
  let r := callToolTry token parseUpdateArgs parseCreateArgs net jsonParse
    schemaParseUpdate schemaParseCreate req
  (catchZodError r.1, r.2)

/-! ## Concrete instances used by witnesses and counterexamples -/

def emptyOptions : UpdatePullRequestOptions :=
  ⟨none, none, none, none, none⟩

def demoCreateParams : CreatePRReviewCommentParams :=
  ⟨"o", "r", 123, "x", "abc123", "f.ts", 42, none, none, none⟩

def demoNet404 : RequestDescriptor → ResponseEnvelope :=
  fun _ => ⟨404, "Not Found", "irrelevant"⟩

def demoNet200 : RequestDescriptor → ResponseEnvelope :=
  fun _ => ⟨200, "OK", "\x7b\x7d"⟩

def demoJsonParse : String → Except String Bool := fun _ => .ok true

def demoSchemaParseOk : Bool → Except (List ZodIssue) Bool := fun _ => .ok true

def demoIssues : List ZodIssue := [⟨["path"], "Required"⟩]

def demoSchemaParseFail : Bool → Except (List ZodIssue) Bool :=
  fun _ => .error demoIssues

def demoParseUpdateFail : ToolArgs → Except (List ZodIssue) UpdatePullRequestArgs :=
  fun _ => .error [⟨["title"], "Required"⟩]

def demoParseUpdateEmptyOk : ToolArgs → Except (List ZodIssue) UpdatePullRequestArgs :=
  fun _ => .ok ⟨"o", "r", 123, emptyOptions⟩

def demoParseCreateOk : ToolArgs → Except (List ZodIssue) CreatePRReviewCommentParams :=
  fun _ => .ok demoCreateParams

/-! ## Helper lemmas -/

lemma processResponse_of_not_ok {β α : Type} (resp : ResponseEnvelope)
    (h : ¬(200 ≤ resp.status ∧ resp.status < 300))
    (jsonParse : String → Except String β)
    (schemaParse : β → Except (List ZodIssue) α) :
    processResponse resp jsonParse schemaParse =
      .error (.error ("GitHub API error: " ++ resp.statusText)) := by
  have hok : resp.ok = false := by
    unfold ResponseEnvelope.ok
    rcases Nat.lt_or_ge resp.status 200 with hlt | hge
    · simp [Nat.not_le_of_lt hlt]
    · have : ¬ resp.status < 300 := fun hc => h ⟨hge, hc⟩
      simp [this]
  unfold processResponse
  rw [hok]
  simp

/-- C1: for every completed HTTP exchange whose status code is not in
[200,300), both `createPRReviewComment` and `updatePullRequest` fail with an
error whose message is exactly `"GitHub API error: " + statusText`.  The
body-parsing and response-validation stages (`jsonParse`, `schemaParse`) are
universally quantified and absent from the conclusion, so the response body
is never passed to the Response Validator. -/
theorem nonSuccessStatus_classified_uniformly {β α : Type} (token : String)
    (net : RequestDescriptor → ResponseEnvelope)
    (jsonParse : String → Except String β)
    (schemaParse : β → Except (List ZodIssue) α) :
    (∀ p : CreatePRReviewCommentParams,
      ¬(200 ≤ (net (createPRReviewCommentRequest token p)).status ∧
          (net (createPRReviewCommentRequest token p)).status < 300) →
      createPRReviewCommentRun token p net jsonParse schemaParse =
        .error (.error ("GitHub API error: " ++
          (net (createPRReviewCommentRequest token p)).statusText))) ∧
    (∀ (owner repo : String) (n : Nat) (o : UpdatePullRequestOptions),
      ¬(200 ≤ (net (updatePullRequestRequest token owner repo n o)).status ∧
          (net (updatePullRequestRequest token owner repo n o)).status < 300) →
      updatePullRequestRun token owner repo n o net jsonParse schemaParse =
        .error (.error ("GitHub API error: " ++
          (net (updatePullRequestRequest token owner repo n o)).statusText))) := by
  constructor
  · intro p h
    exact processResponse_of_not_ok _ h jsonParse schemaParse
  · intro owner repo n o h
    exact processResponse_of_not_ok _ h jsonParse schemaParse

/-- Witness for C1 at a concrete 404 response. -/
theorem nonSuccessStatus_classified_uniformly_witness :
    createPRReviewCommentRun "t" demoCreateParams demoNet404 demoJsonParse
      demoSchemaParseOk =
      (.error (.error "GitHub API error: Not Found") : Except JsError Bool) ∧
    updatePullRequestRun "t" "o" "r" 123 emptyOptions demoNet404 demoJsonParse
      demoSchemaParseOk =
      (.error (.error "GitHub API error: Not Found") : Except JsError Bool) := by
  constructor
  · exact (nonSuccessStatus_classified_uniformly "t" demoNet404 demoJsonParse
      demoSchemaParseOk).1 demoCreateParams (by decide)
  · exact (nonSuccessStatus_classified_uniformly "t" demoNet404 demoJsonParse
      demoSchemaParseOk).2 "o" "r" 123 emptyOptions (by decide)

/-- C8: request building is deterministic — identical parameters yield
identical Request Descriptors (method, URL, headers, serialized body). -/
theorem request_builders_deterministic (token : String) :
    (∀ p q : CreatePRReviewCommentParams, p = q →
      createPRReviewCommentRequest token p =
        createPRReviewCommentRequest token q) ∧
    (∀ (owner repo : String) (n : Nat) (o o' : UpdatePullRequestOptions),
      o = o' →
      updatePullRequestRequest token owner repo n o =
        updatePullRequestRequest token owner repo n o') :=
  ⟨fun _ _ h => by rw [h], fun _ _ _ _ _ h => by rw [h]⟩

/-- Witness for C8 at concrete parameters. -/
theorem request_builders_deterministic_witness :
    createPRReviewCommentRequest "t" demoCreateParams =
      createPRReviewCommentRequest "t" demoCreateParams ∧
    updatePullRequestRequest "t" "o" "r" 123 emptyOptions =
      updatePullRequestRequest "t" "o" "r" 123 emptyOptions :=
  ⟨(request_builders_deterministic "t").1 demoCreateParams demoCreateParams rfl,
   (request_builders_deterministic "t").2 "o" "r" 123 emptyOptions emptyOptions
     rfl⟩

/-- The body object reduced at the `side` key: it always holds
`side || "RIGHT"`. -/
lemma lookup_side_createBody (p : CreatePRReviewCommentParams) :
    lookupField "side" (createPRReviewCommentBodyFields p) =
      some (.str (jsOrString (p.side.map Side.toStr) "RIGHT")) := rfl

/-- C3: the PATCH body of `updatePullRequest` is the JSON serialization of
the options record verbatim, and a key is present in it iff the caller
supplied that option. -/
theorem update_body_keys_iff_supplied (token owner repo : String) (n : Nat)
    (o : UpdatePullRequestOptions) :
    (updatePullRequestRequest token owner repo n o).body =
      stringifyObj (updatePullRequestOptionsFields o) ∧
    ∀ k, k ∈ serializedKeys (updatePullRequestOptionsFields o) ↔
      ((k = "title" ∧ o.title.isSome) ∨ (k = "body" ∧ o.body.isSome) ∨
       (k = "state" ∧ o.state.isSome) ∨ (k = "base" ∧ o.base.isSome) ∨
       (k = "maintainer_can_modify" ∧ o.maintainer_can_modify.isSome)) := by
  refine ⟨rfl, ?_⟩
  intro k
  rcases o with ⟨t, b, s, ba, m⟩
  cases t <;> cases b <;> cases s <;> cases ba <;> cases m <;>
    simp [serializedKeys, presentFields, updatePullRequestOptionsFields,
      optStr, optStateStr, optBool, JsValue.isUndefinedV, List.filter]

/-- C4 counterexample: with `side = some RIGHT` the outbound `side` field is
`"RIGHT"` although the parameter was not omitted, so "`side` equals RIGHT iff
the parameter was omitted" is false. -/
theorem side_RIGHT_iff_omitted_false :
    ¬((lookupField "side" (createPRReviewCommentBodyFields
        { demoCreateParams with side := some Side.RIGHT }) =
          some (JsValue.str "RIGHT")) ↔
      ({ demoCreateParams with side := some Side.RIGHT } :
        CreatePRReviewCommentParams).side = none) := by
  decide

/-- C4 amended: the outbound `side` field is `"RIGHT"` when the parameter is
omitted, and is the passed value (in particular `"LEFT"`) when the caller
supplies one — an explicit value is never overridden. -/
theorem side_defaulting_amended (p : CreatePRReviewCommentParams) :
    (p.side = none →
      lookupField "side" (createPRReviewCommentBodyFields p) =
        some (JsValue.str "RIGHT")) ∧
    (∀ v, p.side = some v →
      lookupField "side" (createPRReviewCommentBodyFields p) =
        some (JsValue.str v.toStr)) := by
  constructor
  · intro h
    rw [lookup_side_createBody, h]
    rfl
  · intro v h
    rw [lookup_side_createBody, h]
    cases v <;> rfl

/-- Witness for C4 amended: omitted side gives RIGHT; explicit LEFT stays
LEFT. -/
theorem side_defaulting_amended_witness :
    lookupField "side" (createPRReviewCommentBodyFields demoCreateParams) =
      some (JsValue.str "RIGHT") ∧
    lookupField "side" (createPRReviewCommentBodyFields
      { demoCreateParams with side := some Side.LEFT }) =
      some (JsValue.str "LEFT") :=
  ⟨(side_defaulting_amended demoCreateParams).1 rfl,
   (side_defaulting_amended _).2 Side.LEFT rfl⟩

/-- C5 counterexample: with `startLine`/`startSide` omitted, the serialized
body holds only five keys — `start_line` and `start_side` are absent, so the
body does not always have exactly the seven documented keys. -/
theorem body_keys_not_always_full :
    serializedKeys (createPRReviewCommentBodyFields demoCreateParams) =
      ["body", "commit_id", "path", "line", "side"] ∧
    ¬("start_line" ∈
      serializedKeys (createPRReviewCommentBodyFields demoCreateParams)) := by
  decide

/-- C5 amended: `createPRReviewComment` issues a POST whose URL is the
documented template with owner, repo and pullNumber substituted verbatim,
and whose JSON body has the keys body, commit_id, path, line and side
always, plus start_line / start_side exactly when the corresponding optional
parameter was supplied. -/
theorem create_request_shape_amended (token : String)
    (p : CreatePRReviewCommentParams) :
    (createPRReviewCommentRequest token p).method = "POST" ∧
    (createPRReviewCommentRequest token p).url =
      "https://api.github.com/repos/" ++ p.owner ++ "/" ++ p.repo ++
        "/pulls/" ++ toString p.pullNumber ++ "/comments" ∧
    (createPRReviewCommentRequest token p).body =
      stringifyObj (createPRReviewCommentBodyFields p) ∧
    ∀ k, k ∈ serializedKeys (createPRReviewCommentBodyFields p) ↔
      (k = "body" ∨ k = "commit_id" ∨ k = "path" ∨ k = "line" ∨ k = "side" ∨
       (k = "start_line" ∧ p.startLine.isSome) ∨
       (k = "start_side" ∧ p.startSide.isSome)) := by
  refine ⟨rfl, rfl, rfl, ?_⟩
  intro k
  rcases p with ⟨ow, re, pn, bo, ci, pa, li, si, sl, ss⟩
  cases sl <;> cases ss <;>
    simp [serializedKeys, presentFields, createPRReviewCommentBodyFields,
      optNum, optSideStr, JsValue.isUndefinedV, List.filter]

/-- C6: when the arguments of a supported tool fail its input schema, the
handler fails with `"Invalid arguments: "` followed by one
`"<field path>: <message>"` entry per violation joined by `", "`, and
performs no network call (fetch count 0). -/
theorem invalid_arguments_error_format {β α : Type} (token : String)
    (parseUpdateArgs : ToolArgs → Except (List ZodIssue) UpdatePullRequestArgs)
    (parseCreateArgs :
      ToolArgs → Except (List ZodIssue) CreatePRReviewCommentParams)
    (net : RequestDescriptor → ResponseEnvelope)
    (jsonParse : String → Except String β)
    (schemaParseUpdate schemaParseCreate : β → Except (List ZodIssue) α)
    (req : CallToolRequest) (args : ToolArgs) (issues : List ZodIssue)
    (hargs : req.arguments = some args)
    (hfail : (req.name = "update_pull_request" ∧
        parseUpdateArgs args = .error issues) ∨
      (req.name = "create_pr_review_comment" ∧
        parseCreateArgs args = .error issues)) :
    handleCallTool token parseUpdateArgs parseCreateArgs net jsonParse
      schemaParseUpdate schemaParseCreate req =
      (.error (.error ("Invalid arguments: " ++ String.intercalate ", "
        (issues.map fun e =>
          String.intercalate "." e.path ++ ": " ++ e.message))), 0) := by
  rcases hfail with ⟨hn, hp⟩ | ⟨hn, hp⟩ <;>
    simp [handleCallTool, callToolTry, hargs, hn, hp, catchZodError,
      formatZodIssues]

/-- Witness for C6: a concrete update_pull_request call whose arguments fail
with one violation at path `title`. -/
theorem invalid_arguments_error_format_witness :
    handleCallTool "t" demoParseUpdateFail demoParseCreateOk demoNet404
      demoJsonParse demoSchemaParseOk demoSchemaParseOk
      ⟨"update_pull_request", some []⟩ =
      ((.error (.error "Invalid arguments: title: Required") :
        Except JsError Bool), 0) := by
  have h := invalid_arguments_error_format "t" demoParseUpdateFail
    demoParseCreateOk demoNet404 demoJsonParse demoSchemaParseOk
    demoSchemaParseOk ⟨"update_pull_request", some []⟩ []
    [⟨["title"], "Required"⟩] rfl (Or.inl ⟨rfl, rfl⟩)
  exact h.trans (by rfl)

/-- C7: an unsupported tool name fails with `"Unknown tool: <name>"`, and an
absent arguments mapping fails with `"Arguments are required"`; neither path
performs a network call. -/
theorem unknown_tool_and_missing_arguments {β α : Type} (token : String)
    (parseUpdateArgs : ToolArgs → Except (List ZodIssue) UpdatePullRequestArgs)
    (parseCreateArgs :
      ToolArgs → Except (List ZodIssue) CreatePRReviewCommentParams)
    (net : RequestDescriptor → ResponseEnvelope)
    (jsonParse : String → Except String β)
    (schemaParseUpdate schemaParseCreate : β → Except (List ZodIssue) α) :
    (∀ name : String,
      handleCallTool token parseUpdateArgs parseCreateArgs net jsonParse
        schemaParseUpdate schemaParseCreate ⟨name, none⟩ =
        (.error (.error "Arguments are required"), 0)) ∧
    (∀ (name : String) (args : ToolArgs),
      name ≠ "update_pull_request" → name ≠ "create_pr_review_comment" →
      handleCallTool token parseUpdateArgs parseCreateArgs net jsonParse
        schemaParseUpdate schemaParseCreate ⟨name, some args⟩ =
        (.error (.error ("Unknown tool: " ++ name)), 0)) := by
  constructor
  · intro name
    simp [handleCallTool, callToolTry, catchZodError]
  · intro name args h1 h2
    simp [handleCallTool, callToolTry, h1, h2, catchZodError]

/-- Witness for C7: absent arguments, and the unsupported name
`"frobnicate"`. -/
theorem unknown_tool_and_missing_arguments_witness :
    handleCallTool "t" demoParseUpdateFail demoParseCreateOk demoNet404
      demoJsonParse demoSchemaParseOk demoSchemaParseOk
      ⟨"create_pr_review_comment", none⟩ =
      ((.error (.error "Arguments are required") : Except JsError Bool), 0) ∧
    handleCallTool "t" demoParseUpdateFail demoParseCreateOk demoNet404
      demoJsonParse demoSchemaParseOk demoSchemaParseOk
      ⟨"frobnicate", some []⟩ =
      ((.error (.error "Unknown tool: frobnicate") : Except JsError Bool),
        0) := by
  constructor
  · exact (unknown_tool_and_missing_arguments "t" demoParseUpdateFail
      demoParseCreateOk demoNet404 demoJsonParse demoSchemaParseOk
      demoSchemaParseOk).1 "create_pr_review_comment"
  · exact ((unknown_tool_and_missing_arguments "t" demoParseUpdateFail
      demoParseCreateOk demoNet404 demoJsonParse demoSchemaParseOk
      demoSchemaParseOk).2 "frobnicate" [] (by decide) (by decide)).trans
      (by rfl)

lemma arguments_required_ne_unknown (s : String) :
    "Arguments are required" ≠ "Unknown tool: " ++ s := by
  intro h
  have hd : "Arguments are required".data = "Unknown tool: ".data ++ s.data := by
    rw [← String.data_append, h]
  have h1 : "Arguments are required".data =
      'A' :: "rguments are required".data := rfl
  have h2 : "Unknown tool: ".data = 'U' :: "nknown tool: ".data := rfl
  rw [h1, h2] at hd
  simp at hd

/-- C9: the missing-arguments check runs before tool-name dispatch — with an
absent arguments mapping the handler fails with `"Arguments are required"`
whatever the name is, and never with an `"Unknown tool: ..."` message. -/
theorem missing_arguments_precedes_dispatch {β α : Type} (token : String)
    (parseUpdateArgs : ToolArgs → Except (List ZodIssue) UpdatePullRequestArgs)
    (parseCreateArgs :
      ToolArgs → Except (List ZodIssue) CreatePRReviewCommentParams)
    (net : RequestDescriptor → ResponseEnvelope)
    (jsonParse : String → Except String β)
    (schemaParseUpdate schemaParseCreate : β → Except (List ZodIssue) α)
    (req : CallToolRequest) (h : req.arguments = none) :
    handleCallTool token parseUpdateArgs parseCreateArgs net jsonParse
      schemaParseUpdate schemaParseCreate req =
      (.error (.error "Arguments are required"), 0) ∧
    ∀ s : String,
      (handleCallTool token parseUpdateArgs parseCreateArgs net jsonParse
        schemaParseUpdate schemaParseCreate req).1 ≠
        .error (.error ("Unknown tool: " ++ s)) := by
  have hmain : handleCallTool token parseUpdateArgs parseCreateArgs net
      jsonParse schemaParseUpdate schemaParseCreate req =
      (.error (.error "Arguments are required"), 0) := by
    simp [handleCallTool, callToolTry, h, catchZodError]
  refine ⟨hmain, ?_⟩
  intro s hcontra
  rw [hmain] at hcontra
  simp only [Except.error.injEq, JsError.error.injEq] at hcontra
  exact arguments_required_ne_unknown s hcontra

/-- Witness for C9: an unknown name with absent arguments still yields
`"Arguments are required"`. -/
theorem missing_arguments_precedes_dispatch_witness :
    handleCallTool "t" demoParseUpdateFail demoParseCreateOk demoNet404
      demoJsonParse demoSchemaParseOk demoSchemaParseOk
      ⟨"frobnicate", none⟩ =
      ((.error (.error "Arguments are required") : Except JsError Bool), 0) ∧
    (handleCallTool "t" demoParseUpdateFail demoParseCreateOk demoNet404
      demoJsonParse demoSchemaParseOk demoSchemaParseOk
      ⟨"frobnicate", none⟩).1 ≠
      (.error (.error ("Unknown tool: " ++ "frobnicate")) :
        Except JsError Bool) := by
  have h := missing_arguments_precedes_dispatch "t" demoParseUpdateFail
    demoParseCreateOk demoNet404 demoJsonParse demoSchemaParseOk
    demoSchemaParseOk ⟨"frobnicate", none⟩ rfl
  exact ⟨h.1, h.2 "frobnicate"⟩

/-- C2 counterexample: a tool invocation with a 2xx response whose body
fails response-schema validation does not surface the Response Validator's
error unchanged — the handler's catch block delivers an `Error` whose
message is `"Invalid arguments: path: Required"`, which differs in kind and
message from the validator's ZodError. -/
theorem response_validation_error_rewritten :
    handleCallTool "t" demoParseUpdateFail demoParseCreateOk demoNet200
      demoJsonParse demoSchemaParseOk demoSchemaParseFail
      ⟨"create_pr_review_comment", some []⟩ =
      ((.error (.error "Invalid arguments: path: Required") :
        Except JsError Bool), 1) ∧
    JsError.error "Invalid arguments: path: Required" ≠
      JsError.zodError demoIssues := by
  exact ⟨rfl, by decide⟩

/-- C2 amended: on a 2xx response failing response-schema validation, the
operation function itself propagates the ZodError unchanged to its caller,
but the `CallToolRequestSchema` handler's catch block rewrites it into an
`Error` whose message is `"Invalid arguments: "` plus the joined
violations, so the error reaching the tool invoker is rewritten, not
propagated unchanged. -/
theorem response_validation_error_propagation_amended {β α : Type}
    (token : String)
    (parseUpdateArgs : ToolArgs → Except (List ZodIssue) UpdatePullRequestArgs)
    (parseCreateArgs :
      ToolArgs → Except (List ZodIssue) CreatePRReviewCommentParams)
    (net : RequestDescriptor → ResponseEnvelope)
    (jsonParse : String → Except String β)
    (schemaParseUpdate schemaParseCreate : β → Except (List ZodIssue) α)
    (req : CallToolRequest) (args : ToolArgs)
    (p : CreatePRReviewCommentParams) (j : β) (issues : List ZodIssue)
    (hargs : req.arguments = some args)
    (hname : req.name = "create_pr_review_comment")
    (hparse : parseCreateArgs args = .ok p)
    (hok : (net (createPRReviewCommentRequest token p)).ok = true)
    (hjson : jsonParse (net (createPRReviewCommentRequest token p)).body =
      .ok j)
    (hschema : schemaParseCreate j = .error issues) :
    createPRReviewCommentRun token p net jsonParse schemaParseCreate =
      .error (.zodError issues) ∧
    handleCallTool token parseUpdateArgs parseCreateArgs net jsonParse
      schemaParseUpdate schemaParseCreate req =
      (.error (.error ("Invalid arguments: " ++ formatZodIssues issues)),
        1) := by
  have hrun : createPRReviewCommentRun token p net jsonParse
      schemaParseCreate = .error (.zodError issues) := by
    unfold createPRReviewCommentRun processResponse
    rw [hok]
    simp [hjson, hschema]
  refine ⟨hrun, ?_⟩
  simp [handleCallTool, callToolTry, hargs, hname, hparse, hrun,
    catchZodError]

/-- Witness for C2 amended at a concrete 200 response and a one-violation
schema failure. -/
theorem response_validation_error_propagation_amended_witness :
    createPRReviewCommentRun "t" demoCreateParams demoNet200 demoJsonParse
      demoSchemaParseFail =
      (.error (.zodError demoIssues) : Except JsError Bool) ∧
    handleCallTool "t" demoParseUpdateFail demoParseCreateOk demoNet200
      demoJsonParse demoSchemaParseOk demoSchemaParseFail
      ⟨"create_pr_review_comment", some []⟩ =
      ((.error (.error ("Invalid arguments: " ++
        formatZodIssues demoIssues)) : Except JsError Bool), 1) := by
  have h := response_validation_error_propagation_amended "t"
    demoParseUpdateFail demoParseCreateOk demoNet200 demoJsonParse
    demoSchemaParseOk demoSchemaParseFail
    ⟨"create_pr_review_comment", some []⟩ [] demoCreateParams true demoIssues
    rfl rfl rfl rfl rfl rfl
  exact h

/-- C10: `updatePullRequest` never rejects an empty options record — the
outbound PATCH body is the literal two-character text `"{}"`, and through
the handler the network call is still performed (fetch count 1), the result
being whatever post-network processing yields. -/
theorem empty_options_no_guard {β α : Type} (token owner repo : String)
    (n : Nat)
    (parseUpdateArgs : ToolArgs → Except (List ZodIssue) UpdatePullRequestArgs)
    (parseCreateArgs :
      ToolArgs → Except (List ZodIssue) CreatePRReviewCommentParams)
    (net : RequestDescriptor → ResponseEnvelope)
    (jsonParse : String → Except String β)
    (schemaParseUpdate schemaParseCreate : β → Except (List ZodIssue) α)
    (req : CallToolRequest) (args : ToolArgs)
    (hargs : req.arguments = some args)
    (hname : req.name = "update_pull_request")
    (hparse : parseUpdateArgs args = .ok ⟨owner, repo, n, emptyOptions⟩) :
    (updatePullRequestRequest token owner repo n emptyOptions).body = "\x7b\x7d" ∧
    (updatePullRequestRequest token owner repo n emptyOptions).method =
      "PATCH" ∧
    handleCallTool token parseUpdateArgs parseCreateArgs net jsonParse
      schemaParseUpdate schemaParseCreate req =
      (catchZodError (processResponse
        (net (updatePullRequestRequest token owner repo n emptyOptions))
        jsonParse schemaParseUpdate), 1) := by
  refine ⟨rfl, rfl, ?_⟩
  simp [handleCallTool, callToolTry, hargs, hname, hparse,
    updatePullRequestRun]

/-- Witness for C10: a concrete empty-options update against a 200 response
reaches the network and succeeds. -/
theorem empty_options_no_guard_witness :
    (updatePullRequestRequest "t" "o" "r" 123 emptyOptions).body = "\x7b\x7d" ∧
    handleCallTool "t" demoParseUpdateEmptyOk demoParseCreateOk demoNet200
      demoJsonParse demoSchemaParseOk demoSchemaParseOk
      ⟨"update_pull_request", some []⟩ =
      ((.ok true : Except JsError Bool), 1) := by
  have h := empty_options_no_guard "t" "o" "r" 123 demoParseUpdateEmptyOk
    demoParseCreateOk demoNet200 demoJsonParse demoSchemaParseOk
    demoSchemaParseOk ⟨"update_pull_request", some []⟩ [] rfl rfl rfl
  exact ⟨h.1, h.2.2.trans (by rfl)⟩
